import Mathlib

/-!
Verification of the Azure architecture-recommendation codebase.

The development shallowly embeds the scoring, pattern-detection, cost-analysis
and selection logic of `AZnewapp.py`, `main.py` and
`modules/scoring_engine.py`.  Python floats are modelled by `ℚ`, Python ints by
`ℤ` (counts by `ℕ` with casts), Python dictionaries by association lists or
structures with `Option` fields where the source uses `dict.get` with a
default, and code that can raise an exception by `Option`-valued functions.
-/

/-- Python's substring test `needle in haystack` on strings. -/
def strContains (needle haystack : String) : Bool :=
  decide (needle.toList <:+: haystack.toList)

/-- Python's `str.lower()` (the source strings are ASCII). -/
def pyLower (s : String) : String :=
  String.mk (s.toList.map (fun c =>
    if 65 ≤ c.toNat ∧ c.toNat ≤ 90 then Char.ofNat (c.toNat + 32) else c))

/-- Python's `str.replace(" ", "_")`: a single-character replacement is a
character-wise map. -/
def pyReplaceSpaceUnderscore (s : String) : String :=
  String.mk (s.toList.map (fun c => if c = ' ' then '_' else c))

/-- Python's string comparison `a <= b` (code-point lexicographic). -/
def pyStrLe (a b : String) : Bool := decide (a.toList ≤ b.toList)

/-- Python's `dict.get(key, default)` over an insertion-ordered
association list. -/
def pyDictGet (table : List (String × α)) (key : String) (default : α) : α :=
  match (table.filter (fun e => e.1 = key)).head? with
  | some e => e.2
  | none => default

/-- Apply a fallible function to every element of a list, aborting on the
first failure — the behaviour of a Python loop in which any iteration may
raise. -/
def optionMapAll (f : α → Option β) : List α → Option (List β)
  | [] => some []
  | a :: l =>
      match f a, optionMapAll f l with
      | some b, some bs => some (b :: bs)
      | _, _ => none

theorem optionMapAll_isSome (f : α → Option β) (l : List α) :
    (optionMapAll f l).isSome = true ↔ ∀ a ∈ l, (f a).isSome = true := by
  induction l with
  | nil => simp [optionMapAll]
  | cons x xs ih =>
    simp only [optionMapAll]
    cases hx : f x with
    | none => simp [hx]
    | some b =>
      cases hxs : optionMapAll f xs with
      | none =>
        simp only
        rw [hxs] at ih
        simp only [Option.isSome_none, Bool.false_eq_true, false_iff,
          not_forall] at ih ⊢
        rcases ih with ⟨a, ha, hfa⟩
        exact ⟨a, List.mem_cons_of_mem x ha, hfa⟩
      | some bs =>
        simp only [Option.isSome_some, true_iff]
        rw [hxs] at ih
        intro a ha
        rcases List.mem_cons.mp ha with rfl | ha
        · simp [hx]
        · exact (ih.mp rfl) a ha

theorem optionMapAll_mem (f : α → Option β) (l : List α) (l2 : List β)
    (h : optionMapAll f l = some l2) (e : β) (he : e ∈ l2) :
    ∃ a ∈ l, f a = some e := by
  induction l generalizing l2 with
  | nil =>
    simp only [optionMapAll, Option.some.injEq] at h
    subst h
    exact absurd he (List.not_mem_nil e)
  | cons x xs ih =>
    simp only [optionMapAll] at h
    cases hx : f x with
    | none => rw [hx] at h; exact absurd h (by simp)
    | some b =>
      rw [hx] at h
      cases hxs : optionMapAll f xs with
      | none => rw [hxs] at h; exact absurd h (by simp)
      | some bs =>
        rw [hxs] at h
        simp only [Option.some.injEq] at h
        subst h
        rcases List.mem_cons.mp he with rfl | he2
        · exact ⟨x, List.mem_cons_self _ _, hx⟩
        · rcases ih bs hxs he2 with ⟨a, ha, hfa⟩
          exact ⟨a, List.mem_cons_of_mem x ha, hfa⟩

/-- Python's `str(list_of_strings)`: `["a", "b"]` prints as `['a', 'b']`
(`\x27` is an ASCII apostrophe). -/
def pyStrList (l : List String) : String :=
  "[" ++ String.intercalate ", " (l.map (fun s => "\x27" ++ s ++ "\x27")) ++ "]"

/-- Insert an element into a list, before the first element `y` with
`le x y`; the auxiliary step of a stable insertion sort. -/
def insertS (le : α → α → Bool) (x : α) : List α → List α
  | [] => [x]
  | y :: ys => if le x y then x :: y :: ys else y :: insertS le x ys

/-- Stable sort with respect to the boolean total preorder `le`: elements
that compare equal keep their original relative order, exactly like Python's
`list.sort`. -/
def sortStable (le : α → α → Bool) : List α → List α
  | [] => []
  | x :: xs => insertS le x (sortStable le xs)

theorem mem_insertS (le : α → α → Bool) (x a : α) (l : List α) :
    a ∈ insertS le x l ↔ a = x ∨ a ∈ l := by
  induction l with
  | nil => simp [insertS]
  | cons y ys ih =>
    simp only [insertS]
    split
    · simp [List.mem_cons]
    · simp only [List.mem_cons, ih]
      tauto

theorem mem_sortStable (le : α → α → Bool) (a : α) (l : List α) :
    a ∈ sortStable le l ↔ a ∈ l := by
  induction l with
  | nil => simp [sortStable]
  | cons x xs ih => simp [sortStable, mem_insertS, ih]

theorem pairwise_insertS (le : α → α → Bool)
    (htot : ∀ a b, le a b = true ∨ le b a = true)
    (htrans : ∀ a b c, le a b = true → le b c = true → le a c = true)
    (x : α) (l : List α)
    (hl : l.Pairwise (fun a b => le a b = true)) :
    (insertS le x l).Pairwise (fun a b => le a b = true) := by
  induction l with
  | nil => simp [insertS]
  | cons y ys ih =>
    rcases List.pairwise_cons.mp hl with ⟨hy, hys⟩
    simp only [insertS]
    split
    · rename_i hxy
      refine List.pairwise_cons.mpr ⟨?_, hl⟩
      intro b hb
      rcases List.mem_cons.mp hb with rfl | hb
      · exact hxy
      · exact htrans x y b hxy (hy b hb)
    · rename_i hxy
      have hyx : le y x = true := by
        rcases htot x y with h | h
        · exact absurd h hxy
        · exact h
      refine List.pairwise_cons.mpr ⟨?_, ih hys⟩
      intro b hb
      rcases (mem_insertS le x b ys).mp hb with rfl | hb
      · exact hyx
      · exact hy b hb

theorem pairwise_sortStable (le : α → α → Bool)
    (htot : ∀ a b, le a b = true ∨ le b a = true)
    (htrans : ∀ a b c, le a b = true → le b c = true → le a c = true)
    (l : List α) :
    (sortStable le l).Pairwise (fun a b => le a b = true) := by
  induction l with
  | nil => simp [sortStable]
  | cons x xs ih => exact pairwise_insertS le htot htrans x _ ih

namespace Az

/-- A service descriptor from the static catalogs.  Fields the Python code
reads with `service.get(key, default)` are `Option`-valued (absent = `none`);
`name` and `category` are read with direct indexing in the code paths we
embed, so they are plain fields.  Presentation-only fields (`description`,
`data_role`, `docs`, `pricing`, `pricing_model`) are not consulted by any
embedded logic and are omitted. -/
structure Service where
  name : String
  category : String
  subcategory : String := ""
  cost_tier : Option String := none
  use_cases : List String := []
  integrates_with : List String := []
  compliance : List String := []
  architectural_importance : Option String := none
deriving Repr, DecidableEq

/-- The user-supplied requirements record.  `capabilities` is an
insertion-ordered mapping name ↦ bool, as in the Python dict.
`budget_sensitivity` is `Option`-valued because the source reads it both as
`requirements.get("budget_sensitivity")` (default `None`) and as
`requirements.get("budget_sensitivity", "medium")`. -/
structure Requirements where
  use_case : String := ""
  industry : String := ""
  capabilities : List (String × Bool) := []
  team_size : ℚ := 10
  expected_users : ℚ := 1000
  data_volume_gb : ℚ := 500
  budget_sensitivity : Option String := none
deriving Repr, DecidableEq

/-- The per-criterion breakdown built by `calculate_comprehensive_score`
(AZnewapp.py); every entry is a Python int. -/
structure ScoreBreakdown where
  functional_alignment : ℤ
  architectural_fit : ℤ
  compliance_match : ℤ
  integration_synergy : ℤ
  cost_efficiency : ℤ
  industry_relevance : ℤ
  innovation_factor : ℤ
deriving Repr, DecidableEq

/-- The table `INDUSTRY_COMPLIANCE` (AZnewapp.py): industry key ↦
(compliance_frameworks, required_services).  The other fields of each entry
are not consulted by `calculate_comprehensive_score`. -/
def INDUSTRY_COMPLIANCE : List (String × List String × List String) :=
  [ ("healthcare",
      (["HIPAA", "HITECH", "FDA", "GxP"],
       ["Azure Key Vault", "Microsoft Defender for Cloud", "Azure Monitor",
        "Azure Private Link"])),
    ("financial",
      (["PCI DSS", "SOX", "GDPR", "Basel III"],
       ["Azure Key Vault", "Microsoft Defender for Cloud", "Azure Firewall",
        "Azure Monitor"])),
    ("government",
      (["FedRAMP", "FISMA", "ITAR", "CJIS"],
       ["Azure Key Vault", "Microsoft Defender for Cloud", "Azure Policy",
        "Azure Monitor"])),
    ("retail",
      (["PCI DSS", "GDPR", "CCPA"],
       ["Azure Key Vault", "Azure CDN", "Azure Application Gateway"])),
    ("manufacturing",
      (["ISO 27001", "SOC 2", "NIST"],
       ["Azure IoT Hub", "Azure Monitor", "Azure Key Vault"])),
    ("technology",
      (["SOC 2", "ISO 27001", "GDPR"],
       ["Azure DevOps", "Azure Key Vault", "Azure Monitor"])),
    ("startup",
      (["SOC 2", "GDPR"],
       ["Azure Functions", "Azure SQL Database", "Azure Monitor"])) ]

/-- The lookup `importance_scores.get(architectural_importance, 10)` in
`calculate_comprehensive_score`. -/
def importanceScore (importance : String) : ℤ :=
  if importance = "critical" then 20
  else if importance = "high" then 15
  else if importance = "medium" then 10
  else if importance = "low" then 5
  else 10

/-- The lookup `cost_scores.get(cost_tier, 6)` in `calculate_comprehensive_score`. -/
def costScore (cost_tier : String) : ℤ :=
  if cost_tier = "free" then 10
  else if cost_tier = "low" then 8
  else if cost_tier = "medium" then 6
  else if cost_tier = "high" then 3
  else if cost_tier = "variable" then 5
  else 6

/-- The hard-coded `innovative_services` list of
`calculate_comprehensive_score`. -/
def innovativeServices : List String :=
  ["Azure OpenAI Service", "Microsoft Fabric", "Azure Digital Twins",
   "Azure Container Apps", "Azure Machine Learning"]

/-- Block 1 of `calculate_comprehensive_score`: Functional Alignment
(0-25 points).  A selected capability matches when its lowercased,
underscored name is a substring of the space-joined lowercased service use
cases; each service use case occurring verbatim in the use-case text adds
3 points. -/
def functionalAlignment (service : Service) (requirements : Requirements) :
    ℤ :=
  let use_case_text := pyLower requirements.use_case
  let service_use_cases := service.use_cases.map pyLower
  let capability_matches : ℤ :=
    ((requirements.capabilities.filter (fun cs =>
        cs.2 && strContains (pyReplaceSpaceUnderscore (pyLower cs.1))
          (String.intercalate " " service_use_cases))).length : ℤ)
  let text_matches : ℤ :=
    3 * ((service_use_cases.filter
      (fun uc => strContains uc use_case_text)).length : ℤ)
  min 25 (capability_matches * 4 + text_matches)

/-- Block 2 of `calculate_comprehensive_score`: Architectural Fit
(0-20 points). -/
def architecturalFit (service : Service) : ℤ :=
  importanceScore (service.architectural_importance.getD "medium")

/-- Block 3 of `calculate_comprehensive_score`: Compliance Match
(0-15 points); `0` when the industry is not in `INDUSTRY_COMPLIANCE`. -/
def complianceMatch (service : Service) (requirements : Requirements) : ℤ :=
  match (INDUSTRY_COMPLIANCE.filter
      (fun e => e.1 = requirements.industry)).head? with
  | some (_, required_frameworks, required_services) =>
      let compliance_score :=
        3 * ((required_frameworks.filter
               (fun f => service.compliance.contains f)).length : ℤ) +
        (if required_services.contains service.name then 6 else 0)
      min 15 compliance_score
  | none => 0

/-- Block 4 of `calculate_comprehensive_score`: Integration Synergy
(0-15 points) against the context's selected-services list. -/
def integrationSynergy (service : Service)
    (architecture_context : List String) : ℤ :=
  let synergy_score : ℤ :=
    2 * ((architecture_context.filter (fun selected =>
        service.integrates_with.any
          (fun partner => strContains partner selected))).length : ℤ)
  min 15 synergy_score

/-- Block 5 of `calculate_comprehensive_score`: Cost Efficiency
(0-10 points). -/
def costEfficiency (service : Service) : ℤ :=
  costScore (service.cost_tier.getD "medium")

/-- Block 6 of `calculate_comprehensive_score`: Industry Relevance
(0-10 points). -/
def industryRelevance (service : Service) (requirements : Requirements) :
    ℤ :=
  let industry := requirements.industry
  if industry ≠ "" ∧ industry ∈ ["healthcare", "financial", "government"] then
    if service.category ∈ ["Security & Identity", "Monitoring & Management"]
    then 8
    else if service.compliance.contains "HIPAA" ||
            service.compliance.contains "FedRAMP" then 10
    else 0
  else if industry ∈ ["technology", "startup"] then
    if service.category ∈ ["AI & Machine Learning", "DevOps & Developer Tools"]
    then 8 else 0
  else if industry = "manufacturing" then
    if service.category ∈ ["IoT & Edge", "Analytics & BI"] then 8 else 0
  else 0

/-- Block 7 of `calculate_comprehensive_score`: Innovation Factor
(0-5 points). -/
def innovationFactor (service : Service) : ℤ :=
  if innovativeServices.contains service.name then 5
  else if service.category = "AI & Machine Learning" then 3
  else 0

/-- The function `calculate_comprehensive_score` (AZnewapp.py, lines 1048-1122): the
point-based scoring engine, assembled from the seven blocks above.
`architecture_context` is the `selected_services` list of the context
dict. -/
def calculate_comprehensive_score (service : Service)
    (requirements : Requirements) (architecture_context : List String) :
    ℤ × ScoreBreakdown :=
  let breakdown : ScoreBreakdown :=
    { functional_alignment := functionalAlignment service requirements
      architectural_fit := architecturalFit service
      compliance_match := complianceMatch service requirements
      integration_synergy := integrationSynergy service architecture_context
      cost_efficiency := costEfficiency service
      industry_relevance := industryRelevance service requirements
      innovation_factor := innovationFactor service }
  (breakdown.functional_alignment + breakdown.architectural_fit +
    breakdown.compliance_match + breakdown.integration_synergy +
    breakdown.cost_efficiency + breakdown.industry_relevance +
    breakdown.innovation_factor, breakdown)

/-- The count `sum(1 for svc in services if svc in selected_services)` in
`detect_architecture_patterns`. -/
def coverage (services selected_services : List String) : ℕ :=
  (services.filter (fun svc => selected_services.contains svc)).length

/-- The completeness classification of `detect_architecture_patterns`
(AZnewapp.py, lines 1142-1152).  The float thresholds `0.7`, `0.8`, `0.5`
are embedded as exact rationals: for an integer left-hand side compared
against `float(t) * n` the two semantics agree (the double nearest each
threshold differs from it by less than the gap to the nearest integer
boundary, and the rounded products never cross an integer). -/
def determineCompleteness (required_coverage total_required
    recommended_coverage total_recommended : ℕ) : String :=
  if required_coverage = total_required then
    if (recommended_coverage : ℚ) ≥ (total_recommended : ℚ) * (7/10) then
      "complete"
    else
      "core_complete"
  else if (required_coverage : ℚ) ≥ (total_required : ℚ) * (8/10) then
    "mostly_complete"
  else if (required_coverage : ℚ) ≥ (total_required : ℚ) * (5/10) then
    "partially_complete"
  else
    "minimal"

/-- The table `base_costs` of `generate_cost_analysis` (monthly USD by cost tier). -/
def base_costs : List (String × ℚ) :=
  [("free", 0), ("low", 75), ("medium", 350), ("high", 1200),
   ("variable", 200)]

/-- The category-specific scaling factor of `generate_cost_analysis`
(AZnewapp.py, lines 1222-1232).  The category tests are Python substring
tests. -/
def scalingFactor (category : String)
    (team_size data_volume expected_users : ℚ) : ℚ :=
  if strContains "Analytics" category || strContains "AI" category then
    max 1 (data_volume / 100)
  else if strContains "Compute" category || strContains "Container" category
  then
    max 1 (expected_users / 500)
  else if strContains "Database" category then
    max 1 ((data_volume / 200) * (expected_users / 1000))
  else if strContains "DevOps" category then
    max 1 (team_size / 5)
  else
    max 1 (expected_users / 1000)

/-- The per-service body of the `generate_cost_analysis` loop:
`base_costs[service.get("cost_tier", "medium")]` is an unguarded dict
lookup, so an unknown tier raises (modelled as `none`); on success the
result is `(monthly_cost, annual_cost)` (`round(x, 2)` is dropped: both
amounts are only consumed for display). -/
def serviceCost (service : Service) (requirements : Requirements) :
    Option (ℚ × ℚ) :=
  let cost_tier := service.cost_tier.getD "medium"
  match (base_costs.filter (fun e => e.1 = cost_tier)).head? with
  | none => none
  | some (_, base_cost) =>
      let factor := scalingFactor service.category requirements.team_size
        requirements.data_volume_gb requirements.expected_users
      let monthly_cost := base_cost * factor
      some (monthly_cost, monthly_cost * 12 * (85/100))

/-- The function `generate_cost_analysis` (AZnewapp.py, lines 1187-1250), restricted to
the cost computation (the optimization-suggestion strings are
display-only).  It raises (= `none`) as soon as one selected service
carries an unknown cost tier. -/
def generate_cost_analysis (selected_services : List Service)
    (requirements : Requirements) : Option (List (String × ℚ × ℚ) × ℚ) :=
  match optionMapAll (fun s =>
      (serviceCost s requirements).map
        (fun c => (s.name, c.1, c.2))) selected_services with
  | none => none
  | some per_service =>
      some (per_service, (per_service.map (fun e => e.2.1)).sum)

/-- One scored catalog entry of AZnewapp.py's `main` loop
(`service_copy` with `total_score` and `score_breakdown` attached). -/
structure ScoredService where
  service : Service
  total_score : ℤ
  score_breakdown : ScoreBreakdown
deriving Repr, DecidableEq

/-- The sort key of AZnewapp.py `main`:
`key=lambda x: (-x["total_score"], x["name"])`, as a non-strict total
preorder (descending score, ties by ascending name). -/
def azSortLe (a b : ScoredService) : Bool :=
  b.total_score < a.total_score ||
    (a.total_score = b.total_score && pyStrLe a.service.name b.service.name)

/-- The reached result of AZnewapp.py `main` (lines 1539-1560): the scored
list after the in-place sort, the top-20 truncation, and the
`selected_services` assigned to the context once afterwards. -/
structure AzPipelineResult where
  scored_services : List ScoredService
  top_services : List ScoredService
  selected_services : List String
deriving Repr, DecidableEq

/-- The scoring-selection pass of AZnewapp.py `main`: every catalog service
is scored against the context whose `selected_services` list is `[]` for
the whole pass (the Python dict is created as `{"selected_services": []}`
and only reassigned after the sort and truncation), filtered by
`score > 10`, sorted by `(-total_score, name)`, truncated to 20, and the
names of the survivors become the context's `selected_services`. -/
def azPipeline (requirements : Requirements) (all_services : List Service) :
    AzPipelineResult :=
  let architecture_context : List String := []
  let scored_services := all_services.filterMap (fun service =>
    let r := calculate_comprehensive_score service requirements
      architecture_context
    if 10 < r.1 then
      some { service := service, total_score := r.1, score_breakdown := r.2 }
    else none)
  let sorted := sortStable azSortLe scored_services
  let top_services := sorted.take 20
  { scored_services := sorted
    top_services := top_services
    selected_services := top_services.map (fun svc => svc.service.name) }

/-- The three outcomes of the main-content dispatch in both entry points. -/
inductive UiOutcome where
  | runPipeline
  | errorMessage
  | welcomeScreen
deriving Repr, DecidableEq

/-- The main-content dispatch of AZnewapp.py `main` (lines 1525, 1777):
`if generate_recommendations and use_case:` runs the pipeline and the only
other branch is the `else:` welcome screen — there is no error branch. -/
def azDispatch (generate_recommendations : Bool) (use_case : String) :
    UiOutcome :=
  if generate_recommendations && use_case ≠ "" then UiOutcome.runPipeline
  else UiOutcome.welcomeScreen

end Az

namespace Engine

/-- The per-criterion scores of `IntelligentScoringEngine.calculate_score`
(modules/scoring_engine.py); every entry is a Python float, modelled by
`ℚ`. -/
structure Scores where
  functional_alignment : ℚ
  architectural_fit : ℚ
  compliance_match : ℚ
  integration_synergy : ℚ
  cost_efficiency : ℚ
  industry_relevance : ℚ
  innovation_factor : ℚ
deriving Repr, DecidableEq

/-- A weight vector over the seven criteria. -/
structure Weights where
  functional_alignment : ℚ
  architectural_fit : ℚ
  compliance_match : ℚ
  integration_synergy : ℚ
  cost_efficiency : ℚ
  industry_relevance : ℚ
  innovation_factor : ℚ
deriving Repr, DecidableEq

/-- The table `self.requirement_patterns` of `IntelligentScoringEngine.__init__`. -/
def requirement_patterns : List (String × List String) :=
  [ ("high_availability",
     ["load_balancer", "failover", "redundancy", "backup",
      "disaster_recovery", "availability_zones", "geo_redundancy"]),
    ("security_focused",
     ["firewall", "encryption", "identity", "compliance",
      "zero_trust", "private_endpoints", "key_vault"]),
    ("data_intensive",
     ["analytics", "big_data", "warehouse", "etl",
      "data_lake", "synapse", "databricks", "streaming"]),
    ("modern_apps",
     ["microservices", "containers", "serverless", "api",
      "kubernetes", "docker", "functions", "app_service"]),
    ("ai_ml",
     ["machine_learning", "cognitive", "openai", "prediction",
      "computer_vision", "nlp", "deep_learning"]),
    ("iot_edge",
     ["iot", "edge", "telemetry", "device", "digital_twins",
      "time_series", "streaming", "event_hub"]),
    ("hybrid_cloud",
     ["arc", "hybrid", "on_premises", "vpn", "expressroute",
      "site_recovery", "backup"]) ]

/-- The table `self.service_criticality` of `IntelligentScoringEngine.__init__`. -/
def service_criticality : List (String × List String) :=
  [ ("networking",
     ["Azure Virtual Network", "Azure Firewall", "Azure Application Gateway"]),
    ("security",
     ["Azure Key Vault", "Azure Active Directory", "Microsoft Defender"]),
    ("monitoring",
     ["Azure Monitor", "Application Insights", "Log Analytics"]),
    ("data",
     ["Azure SQL Database", "Azure Cosmos DB", "Azure Storage"]) ]

/-- The method `IntelligentScoringEngine._detect_patterns`: for each requirement
pattern, append its name when a keyword occurs in the use-case text, then
when a keyword occurs in a selected capability name (guarding against a
duplicate append). -/
def detect_patterns (requirements : Az.Requirements) : List String :=
  let use_case := pyLower requirements.use_case
  let capabilities := requirements.capabilities
  requirement_patterns.foldl
    (fun (detected : List String) (pk : String × List String) =>
      let detected :=
        if pk.2.any (fun keyword => strContains keyword use_case) then
          detected ++ [pk.1]
        else detected
      capabilities.foldl (fun (detected : List String) cs =>
        if cs.2 && pk.2.any (fun keyword => strContains keyword (pyLower cs.1))
            && !(detected.contains pk.1) then
          detected ++ [pk.1]
        else detected) detected) []

/-- The method `IntelligentScoringEngine._calculate_functional_alignment`.  The
capability term divides by the number of *selected* capabilities
(`len([c for c in capabilities.values() if c])`); when the capabilities
mapping is non-empty but every value is false this is a division by zero
(a Python `ZeroDivisionError`), modelled as `none`. -/
def calculate_functional_alignment (service : Az.Service)
    (requirements : Az.Requirements) (patterns : List String) : Option ℚ :=
  let service_use_cases := service.use_cases
  let use_case_text := pyLower requirements.use_case
  let score : ℚ := (2/10) *
    ((service_use_cases.filter (fun uc =>
        strContains (pyLower uc) use_case_text)).length : ℚ)
  let capabilities := requirements.capabilities
  let capability_matches : ℚ :=
    ((capabilities.filter (fun cs =>
        cs.2 && service_use_cases.any (fun uc =>
          strContains (pyReplaceSpaceUnderscore (pyLower cs.1))
            (pyLower uc)))).length : ℚ)
  let selected_count := (capabilities.filter (fun cs => cs.2)).length
  let pattern_bonus : ℚ := (1/10) *
    ((patterns.filter (fun pattern =>
        (pyDictGet requirement_patterns pattern []).any (fun keyword =>
          strContains keyword
            (pyLower (pyStrList service_use_cases))))).length : ℚ)
  match capabilities with
  | [] => some (min 1 (score + min (4/10) pattern_bonus))
  | _ :: _ =>
      if selected_count = 0 then none
      else
        some (min 1 (score + capability_matches / (selected_count : ℚ) * (4/10)
          + min (4/10) pattern_bonus))

/-- The method `IntelligentScoringEngine._calculate_architectural_fit`. -/
def calculate_architectural_fit (service : Az.Service)
    (patterns : List String) : ℚ :=
  let importance := service.architectural_importance.getD "medium"
  let base_score : ℚ :=
    if importance = "critical" then 1
    else if importance = "high" then 75/100
    else if importance = "medium" then 5/10
    else if importance = "low" then 25/100
    else 5/10
  let service_name := service.name
  let base_score :=
    if service_criticality.any (fun e => e.2.contains service_name) then
      max base_score (9/10)
    else base_score
  let base_score :=
    if patterns.contains "high_availability" &&
        (service.category = "Networking" ||
          service.use_cases.contains "load_balancer") then
      base_score * (12/10)
    else base_score
  let base_score :=
    if patterns.contains "security_focused" &&
        service.category = "Security & Identity" then
      base_score * (13/10)
    else base_score
  let base_score :=
    if patterns.contains "data_intensive" &&
        (service.category ∈ ["Analytics & BI", "Databases", "Storage"]) then
      base_score * (12/10)
    else base_score
  min 1 base_score

/-- The engine's own (simplified) industry-compliance table inside
`_calculate_compliance_score`. -/
def industry_compliance : List (String × List String) :=
  [ ("healthcare", ["HIPAA", "HITECH", "FDA"]),
    ("financial", ["PCI DSS", "SOX", "GDPR"]),
    ("government", ["FedRAMP", "FISMA", "ITAR"]),
    ("retail", ["PCI DSS", "GDPR", "CCPA"]) ]

/-- The method `IntelligentScoringEngine._calculate_compliance_score`. -/
def calculate_compliance_score (service : Az.Service)
    (requirements : Az.Requirements) : ℚ :=
  let industry := requirements.industry
  if industry = "" then 5/10
  else
    let required_frameworks := pyDictGet industry_compliance industry []
    match required_frameworks with
    | [] => 5/10
    | _ :: _ =>
        let matchCount :=
          (required_frameworks.filter
            (fun f => service.compliance.contains f)).length
        let score : ℚ := (matchCount : ℚ) / (required_frameworks.length : ℚ)
        if (industry ∈ ["healthcare", "financial", "government"]) &&
            service.category = "Security & Identity" then
          min 1 (score + 2/10)
        else score

/-- The method `IntelligentScoringEngine._calculate_integration_score`: the neutral
score `0.5` when no services are selected yet, otherwise
`0.3 + synergy * 0.7` where synergy is the fraction of selected services
that share a (bidirectional substring) integration point. -/
def calculate_integration_score (service : Az.Service)
    (selected_services : List String) : ℚ :=
  let integrations := service.integrates_with
  match selected_services with
  | [] => 5/10
  | _ :: _ =>
      let integration_count :=
        (selected_services.filter (fun selected =>
          integrations.any (fun integration =>
            strContains integration selected ||
              strContains selected integration))).length
      let synergy : ℚ :=
        (integration_count : ℚ) / (selected_services.length : ℚ)
      min 1 ((3/10) + synergy * (7/10))

/-- The lookup `cost_scores.get(cost_tier, 0.5)` in `_calculate_cost_efficiency`. -/
def engineCostScore (cost_tier : String) : ℚ :=
  if cost_tier = "free" then 1
  else if cost_tier = "low" then 8/10
  else if cost_tier = "medium" then 6/10
  else if cost_tier = "high" then 4/10
  else if cost_tier = "variable" then 5/10
  else 5/10

/-- The lookup `sensitivity_multipliers.get(budget_sensitivity, {}).get(cost_tier, 1.0)`
in `_calculate_cost_efficiency`. -/
def sensitivityMultiplier (budget_sensitivity cost_tier : String) : ℚ :=
  if budget_sensitivity = "high" then
    if cost_tier = "free" then 12/10
    else if cost_tier = "low" then 11/10
    else if cost_tier = "medium" then 8/10
    else if cost_tier = "high" then 5/10
    else if cost_tier = "variable" then 7/10
    else 1
  else if budget_sensitivity = "medium" then
    if cost_tier = "free" then 11/10
    else if cost_tier = "low" then 1
    else if cost_tier = "medium" then 1
    else if cost_tier = "high" then 9/10
    else if cost_tier = "variable" then 9/10
    else 1
  else if budget_sensitivity = "low" then 1
  else 1

/-- The method `IntelligentScoringEngine._calculate_cost_efficiency`. -/
def calculate_cost_efficiency (service : Az.Service)
    (requirements : Az.Requirements) : ℚ :=
  let cost_tier := service.cost_tier.getD "medium"
  let budget_sensitivity := requirements.budget_sensitivity.getD "medium"
  min 1 (engineCostScore cost_tier *
    sensitivityMultiplier budget_sensitivity cost_tier)

/-- The table `industry_priorities` of `_calculate_industry_relevance`:
industry ↦ (category ↦ priority). -/
def industry_priorities : List (String × List (String × ℚ)) :=
  [ ("healthcare",
     [("Security & Identity", 9/10), ("Analytics & BI", 8/10),
      ("Compliance", 9/10), ("AI & Machine Learning", 7/10)]),
    ("financial",
     [("Security & Identity", 9/10), ("Analytics & BI", 9/10),
      ("Databases", 8/10), ("Compliance", 9/10)]),
    ("retail",
     [("Analytics & BI", 9/10), ("AI & Machine Learning", 8/10),
      ("Integration & Messaging", 7/10), ("Compute", 7/10)]),
    ("manufacturing",
     [("IoT & Edge", 9/10), ("Analytics & BI", 8/10),
      ("AI & Machine Learning", 8/10), ("Storage", 7/10)]),
    ("technology",
     [("DevOps & Developer Tools", 9/10), ("Containers", 9/10),
      ("AI & Machine Learning", 8/10), ("Compute", 8/10)]),
    ("government",
     [("Security & Identity", 1), ("Compliance", 1),
      ("Monitoring & Management", 8/10),
      ("Backup & Disaster Recovery", 8/10)]) ]

/-- The method `IntelligentScoringEngine._calculate_industry_relevance`: a
category-priority lookup with neutral default `0.5`. -/
def calculate_industry_relevance (service : Az.Service)
    (requirements : Az.Requirements) : ℚ :=
  let industry := requirements.industry
  match (industry_priorities.filter (fun e => e.1 = industry)).head? with
  | some (_, priorities) => pyDictGet priorities service.category (5/10)
  | none => 5/10

/-- The engine's `innovative_services` list inside
`_calculate_innovation_score`. -/
def engineInnovativeServices : List String :=
  ["Azure OpenAI Service", "Microsoft Fabric", "Azure Container Apps",
   "Azure Arc", "Azure Synapse Analytics", "Azure Digital Twins",
   "Azure Machine Learning"]

/-- The method `IntelligentScoringEngine._calculate_innovation_score`. -/
def calculate_innovation_score (service : Az.Service)
    (patterns : List String) : ℚ :=
  if engineInnovativeServices.contains service.name then 1
  else if patterns.contains "ai_ml" && strContains "AI" service.category then
    8/10
  else if patterns.contains "modern_apps" &&
      (service.subcategory ∈ ["Serverless", "Containers", "Microservices"])
  then 7/10
  else if service.category ∈ ["AI & Machine Learning", "IoT & Edge",
      "Containers"] then 6/10
  else 3/10

/-- The sum of a weight vector (`sum(weights.values())` in
`_adjust_weights`). -/
def weightsTotal (w : Weights) : ℚ :=
  w.functional_alignment + w.architectural_fit + w.compliance_match +
    w.integration_synergy + w.cost_efficiency + w.industry_relevance +
    w.innovation_factor

/-- The boosted (pre-normalization) weights of
`IntelligentScoringEngine._adjust_weights`: the static `weight_matrix` with
the security, budget and innovation boosts applied. -/
def adjust_weights_pre (requirements : Az.Requirements)
    (patterns : List String) : Weights :=
  let security := patterns.contains "security_focused"
  { functional_alignment := 30/100
    architectural_fit := (20/100) * (if security then 12/10 else 1)
    compliance_match := (15/100) * (if security then 13/10 else 1)
    integration_synergy := 15/100
    cost_efficiency := (10/100) *
      (if requirements.budget_sensitivity = some "high" then 15/10 else 1)
    industry_relevance := 5/100
    innovation_factor := (5/100) *
      (if patterns.contains "ai_ml" || patterns.contains "modern_apps" then
        14/10 else 1) }

/-- The method `IntelligentScoringEngine._adjust_weights`: the boosted weights,
renormalized so they sum to 1. -/
def adjust_weights (requirements : Az.Requirements)
    (patterns : List String) : Weights :=
  let w := adjust_weights_pre requirements patterns
  let total := weightsTotal w
  { functional_alignment := w.functional_alignment / total
    architectural_fit := w.architectural_fit / total
    compliance_match := w.compliance_match / total
    integration_synergy := w.integration_synergy / total
    cost_efficiency := w.cost_efficiency / total
    industry_relevance := w.industry_relevance / total
    innovation_factor := w.innovation_factor / total }

/-- The method `IntelligentScoringEngine.calculate_score` (modules/scoring_engine.py,
lines 60-110): the weighted-sum engine, `none` when
`_calculate_functional_alignment` raises. -/
def calculate_score (service : Az.Service)
    (requirements : Az.Requirements) (context : List String) :
    Option (ℚ × Scores) :=
  let detected_patterns := detect_patterns requirements
  match calculate_functional_alignment service requirements
      detected_patterns with
  | none => none
  | some fa =>
      let scores : Scores :=
        { functional_alignment := fa
          architectural_fit :=
            calculate_architectural_fit service detected_patterns
          compliance_match := calculate_compliance_score service requirements
          integration_synergy := calculate_integration_score service context
          cost_efficiency := calculate_cost_efficiency service requirements
          industry_relevance :=
            calculate_industry_relevance service requirements
          innovation_factor :=
            calculate_innovation_score service detected_patterns }
      let w := adjust_weights requirements detected_patterns
      let total_score :=
        scores.functional_alignment * w.functional_alignment +
        scores.architectural_fit * w.architectural_fit +
        scores.compliance_match * w.compliance_match +
        scores.integration_synergy * w.integration_synergy +
        scores.cost_efficiency * w.cost_efficiency +
        scores.industry_relevance * w.industry_relevance +
        scores.innovation_factor * w.innovation_factor
      some (total_score * 100, scores)

/-- One scored catalog entry of main.py's `process_architecture_request`
(`service_copy` with `total_score` and `score_breakdown` attached). -/
structure ScoredService where
  service : Az.Service
  total_score : ℚ
  score_breakdown : Scores
deriving Repr, DecidableEq

/-- The sort key of main.py `process_architecture_request`:
`key=lambda x: x["total_score"], reverse=True`, as a non-strict total
preorder.  With Python's stable sort, equal-score entries keep their
original (catalog) order. -/
def mainSortLe (a b : ScoredService) : Bool :=
  decide (b.total_score ≤ a.total_score)

/-- The reached result of main.py `process_architecture_request`
(lines 73-95). -/
structure MainPipelineResult where
  scored_services : List ScoredService
  top_services : List ScoredService
  selected_services : List String
deriving Repr, DecidableEq

/-- The function `process_architecture_request` (main.py, lines 73-95): every catalog
service is scored against the context whose `selected_services` list is
`[]` for the whole pass, filtered by `score > 20`, sorted descending by
score alone (a stable sort), truncated to 25, and the names of the
survivors become the context's `selected_services`.  A scoring exception
for any catalog service aborts the whole request (`none`). -/
def process_architecture_request (requirements : Az.Requirements)
    (all_services : List Az.Service) : Option MainPipelineResult :=
  let context : List String := []
  match optionMapAll (fun service =>
      (calculate_score service requirements context).map
        (fun r => ({ service := service, total_score := r.1,
                     score_breakdown := r.2 } : ScoredService)))
      all_services with
  | none => none
  | some scored_all =>
      let scored_services :=
        scored_all.filter (fun s => decide (20 < s.total_score))
      let sorted := sortStable mainSortLe scored_services
      let top_services := sorted.take 25
      some { scored_services := sorted
             top_services := top_services
             selected_services :=
               top_services.map (fun s => s.service.name) }

/-- The main-content dispatch of main.py `main` (lines 57-63):
`if requirements["generate"] and requirements["use_case"]:` runs the
pipeline, `elif requirements["generate"]:` shows an error message, and
otherwise the welcome screen renders. -/
def mainDispatch (generate : Bool) (use_case : String) : Az.UiOutcome :=
  if generate && use_case ≠ "" then Az.UiOutcome.runPipeline
  else if generate then Az.UiOutcome.errorMessage
  else Az.UiOutcome.welcomeScreen

end Engine

namespace Catalog

/-- The method `AzureServiceCatalog.get_all_services` (modules/azure_services.py): the
full eight-service catalog used by main.py, in source order. -/
def azureVirtualNetwork : Az.Service :=
  { name := "Azure Virtual Network"
    category := "Networking"
    subcategory := "Core Infrastructure"
    cost_tier := some "low"
    use_cases := ["network_isolation", "hybrid_connectivity", "security",
                  "subnets"]
    integrates_with := ["Virtual Machines", "AKS", "Application Gateway",
                        "Firewall"]
    compliance := ["SOC", "HIPAA", "ISO", "FedRAMP"]
    architectural_importance := some "critical" }

def azureApplicationGateway : Az.Service :=
  { name := "Azure Application Gateway"
    category := "Networking"
    subcategory := "Application Delivery"
    cost_tier := some "medium"
    use_cases := ["load_balancer", "ssl_termination", "waf", "routing"]
    integrates_with := ["Virtual Network", "AKS", "App Service", "Key Vault"]
    compliance := ["SOC", "ISO", "PCI DSS"]
    architectural_importance := some "high" }

def azureFunctions : Az.Service :=
  { name := "Azure Functions"
    category := "Compute"
    subcategory := "Serverless"
    cost_tier := some "low"
    use_cases := ["serverless", "event_driven", "microservices", "api"]
    integrates_with := ["Event Grid", "Service Bus", "Cosmos DB",
                        "API Management"]
    compliance := ["SOC", "ISO"]
    architectural_importance := some "medium" }

def azureKubernetesService : Az.Service :=
  { name := "Azure Kubernetes Service"
    category := "Containers"
    subcategory := "Container Orchestration"
    cost_tier := some "medium"
    use_cases := ["microservices", "containers", "kubernetes", "scalability"]
    integrates_with := ["Container Registry", "Monitor", "Key Vault",
                        "Virtual Network"]
    compliance := ["SOC", "HIPAA", "ISO"]
    architectural_importance := some "high" }

def azureSqlDatabase : Az.Service :=
  { name := "Azure SQL Database"
    category := "Databases"
    subcategory := "Relational"
    cost_tier := some "medium"
    use_cases := ["relational_database", "sql", "transactions", "analytics"]
    integrates_with := ["App Service", "Functions", "Data Factory", "Synapse"]
    compliance := ["SOC", "HIPAA", "ISO", "FedRAMP"]
    architectural_importance := some "high" }

def azureCosmosDb : Az.Service :=
  { name := "Azure Cosmos DB"
    category := "Databases"
    subcategory := "NoSQL"
    cost_tier := some "high"
    use_cases := ["nosql", "global_distribution", "multi_model", "real_time"]
    integrates_with := ["Functions", "App Service", "Synapse",
                        "Stream Analytics"]
    compliance := ["SOC", "HIPAA", "ISO"]
    architectural_importance := some "high" }

def azureKeyVaultModules : Az.Service :=
  { name := "Azure Key Vault"
    category := "Security & Identity"
    subcategory := "Secrets Management"
    cost_tier := some "low"
    use_cases := ["secrets", "keys", "certificates", "encryption"]
    integrates_with := ["All Azure Services"]
    compliance := ["SOC", "HIPAA", "ISO", "FedRAMP"]
    architectural_importance := some "critical" }

def azureMonitorModules : Az.Service :=
  { name := "Azure Monitor"
    category := "Monitoring & Management"
    subcategory := "Observability"
    cost_tier := some "medium"
    use_cases := ["monitoring", "logging", "metrics", "alerting"]
    integrates_with := ["All Azure Services"]
    compliance := ["SOC", "ISO"]
    architectural_importance := some "critical" }

/-- The catalog list, in source order. -/
def get_all_services : List Az.Service :=
  [azureVirtualNetwork, azureApplicationGateway, azureFunctions,
   azureKubernetesService, azureSqlDatabase, azureCosmosDb,
   azureKeyVaultModules, azureMonitorModules]

/-- The catalog function `get_comprehensive_azure_services` (AZnewapp.py) entry
"Azure Stream Analytics" (lines 84-97). -/
def azureStreamAnalytics : Az.Service :=
  { name := "Azure Stream Analytics"
    category := "Analytics & BI"
    subcategory := "Real-time Analytics"
    cost_tier := some "medium"
    use_cases := ["real_time", "streaming", "iot", "event_processing"]
    integrates_with := ["Event Hubs", "IoT Hub", "Power BI", "Functions"]
    compliance := ["SOC", "ISO"]
    architectural_importance := some "medium" }

/-- The catalog function `get_comprehensive_azure_services` (AZnewapp.py) entry
"Azure Virtual Machines" (lines 208-221): a baseline compute service whose
use cases (legacy apps, lift-and-shift) are unrelated to real-time
analytics. -/
def azureVirtualMachines : Az.Service :=
  { name := "Azure Virtual Machines"
    category := "Compute"
    subcategory := "IaaS"
    cost_tier := some "variable"
    use_cases := ["legacy_apps", "custom_software", "lift_shift", "windows",
                  "linux"]
    integrates_with := ["Virtual Network", "Load Balancer", "Monitor",
                        "Backup"]
    compliance := ["SOC", "HIPAA", "ISO", "FedRAMP"]
    architectural_importance := some "medium" }

/-- The catalog function `get_comprehensive_azure_services` (AZnewapp.py) entry
"Azure Key Vault" (lines 608-621): a security service. -/
def azureKeyVault : Az.Service :=
  { name := "Azure Key Vault"
    category := "Security & Identity"
    subcategory := "Secrets Management"
    cost_tier := some "low"
    use_cases := ["secrets", "keys", "certificates", "encryption"]
    integrates_with := ["App Service", "Functions", "AKS", "Virtual Machines"]
    compliance := ["SOC", "HIPAA", "ISO", "FedRAMP"]
    architectural_importance := some "critical" }

end Catalog

namespace Az

theorem functionalAlignment_bounds (s : Service) (r : Requirements) :
    0 ≤ functionalAlignment s r ∧ functionalAlignment s r ≤ 25 := by
  unfold functionalAlignment
  dsimp only
  omega

theorem architecturalFit_bounds (s : Service) :
    0 ≤ architecturalFit s ∧ architecturalFit s ≤ 20 := by
  unfold architecturalFit importanceScore
  split_ifs <;> omega

theorem complianceMatch_bounds (s : Service) (r : Requirements) :
    0 ≤ complianceMatch s r ∧ complianceMatch s r ≤ 15 := by
  unfold complianceMatch
  split
  · dsimp only
    split_ifs <;> omega
  · omega

theorem integrationSynergy_bounds (s : Service) (c : List String) :
    0 ≤ integrationSynergy s c ∧ integrationSynergy s c ≤ 15 := by
  unfold integrationSynergy
  dsimp only
  omega

theorem costEfficiency_bounds (s : Service) :
    0 ≤ costEfficiency s ∧ costEfficiency s ≤ 10 := by
  unfold costEfficiency costScore
  split_ifs <;> omega

theorem industryRelevance_bounds (s : Service) (r : Requirements) :
    0 ≤ industryRelevance s r ∧ industryRelevance s r ≤ 10 := by
  unfold industryRelevance
  dsimp only
  split_ifs <;> omega

theorem innovationFactor_bounds (s : Service) :
    0 ≤ innovationFactor s ∧ innovationFactor s ≤ 5 := by
  unfold innovationFactor
  split_ifs <;> omega

/-- The point-based total is the sum of seven capped blocks, hence lies
in `[0, 25+20+15+15+10+10+5] = [0, 100]`. -/
theorem comprehensive_score_bounds (s : Service) (r : Requirements)
    (c : List String) :
    0 ≤ (calculate_comprehensive_score s r c).1 ∧
      (calculate_comprehensive_score s r c).1 ≤ 100 := by
  have h1 := functionalAlignment_bounds s r
  have h2 := architecturalFit_bounds s
  have h3 := complianceMatch_bounds s r
  have h4 := integrationSynergy_bounds s c
  have h5 := costEfficiency_bounds s
  have h6 := industryRelevance_bounds s r
  have h7 := innovationFactor_bounds s
  unfold calculate_comprehensive_score
  dsimp only
  omega

end Az

theorem pyDictGet_prop {α : Type} (P : α → Prop) (t : List (String × α))
    (k : String) (d : α) (hd : P d) (ht : ∀ e ∈ t, P e.2) :
    P (pyDictGet t k d) := by
  unfold pyDictGet
  split
  · rename_i e h
    exact ht e (List.mem_of_mem_filter
      ((List.eq_cons_of_mem_head? h) ▸ List.mem_cons_self _ _))
  · exact hd

theorem ite_mul_nonneg (c : Prop) [Decidable c] (b k : ℚ)
    (hb : 0 ≤ b) (hk : 0 ≤ k) : 0 ≤ (if c then b * k else b) := by
  split
  · exact mul_nonneg hb hk
  · exact hb

namespace Engine

theorem functional_alignment_bounds (s : Az.Service) (r : Az.Requirements)
    (p : List String) (q : ℚ)
    (h : calculate_functional_alignment s r p = some q) :
    0 ≤ q ∧ q ≤ 1 := by
  unfold calculate_functional_alignment at h
  dsimp only at h
  split at h
  · injection h with h
    subst h
    refine ⟨le_min (by norm_num) ?_, min_le_left _ _⟩
    positivity
  · split at h
    · exact absurd h (by simp)
    · injection h with h
      subst h
      refine ⟨le_min (by norm_num) ?_, min_le_left _ _⟩
      positivity

theorem architectural_fit_bounds (s : Az.Service) (p : List String) :
    0 ≤ calculate_architectural_fit s p ∧
      calculate_architectural_fit s p ≤ 1 := by
  unfold calculate_architectural_fit
  dsimp only
  refine ⟨le_min (by norm_num) ?_, min_le_left _ _⟩
  apply ite_mul_nonneg
  · apply ite_mul_nonneg
    · apply ite_mul_nonneg
      · split
        · exact le_trans (by norm_num) (le_max_right _ _)
        · split_ifs <;> norm_num
      · norm_num
    · norm_num
  · norm_num

theorem compliance_score_bounds (s : Az.Service) (r : Az.Requirements) :
    0 ≤ calculate_compliance_score s r ∧
      calculate_compliance_score s r ≤ 1 := by
  unfold calculate_compliance_score
  dsimp only
  split
  · norm_num
  · split
    · norm_num
    · rename_i h1 f l hfl
      rw [hfl]
      have hlen : (0:ℚ) < ((f :: l).length : ℚ) := by
        exact_mod_cast Nat.succ_pos l.length
      have hcount : ((List.filter (fun fr => s.compliance.contains fr)
          (f :: l)).length : ℚ) ≤ ((f :: l).length : ℚ) := by
        exact_mod_cast List.length_filter_le _ _
      have hdiv0 : (0:ℚ) ≤ ((List.filter (fun fr => s.compliance.contains fr)
          (f :: l)).length : ℚ) / ((f :: l).length : ℚ) := by positivity
      have hdiv1 : ((List.filter (fun fr => s.compliance.contains fr)
          (f :: l)).length : ℚ) / ((f :: l).length : ℚ) ≤ 1 :=
        (div_le_one hlen).mpr hcount
      split_ifs
      · exact ⟨le_min (by norm_num) (by linarith), min_le_left _ _⟩
      · exact ⟨hdiv0, hdiv1⟩

theorem integration_score_bounds (s : Az.Service) (c : List String) :
    0 ≤ calculate_integration_score s c ∧
      calculate_integration_score s c ≤ 1 := by
  unfold calculate_integration_score
  dsimp only
  split
  · norm_num
  · refine ⟨le_min (by norm_num) (by positivity), min_le_left _ _⟩

theorem cost_efficiency_bounds (s : Az.Service) (r : Az.Requirements) :
    0 ≤ calculate_cost_efficiency s r ∧
      calculate_cost_efficiency s r ≤ 1 := by
  unfold calculate_cost_efficiency
  dsimp only
  have h1 : (0:ℚ) ≤ engineCostScore (s.cost_tier.getD "medium") := by
    unfold engineCostScore; split_ifs <;> norm_num
  have h2 : (0:ℚ) ≤ sensitivityMultiplier
      (r.budget_sensitivity.getD "medium") (s.cost_tier.getD "medium") := by
    unfold sensitivityMultiplier; split_ifs <;> norm_num
  exact ⟨le_min (by norm_num) (mul_nonneg h1 h2), min_le_left _ _⟩

theorem industry_relevance_bounds (s : Az.Service) (r : Az.Requirements) :
    0 ≤ calculate_industry_relevance s r ∧
      calculate_industry_relevance s r ≤ 1 := by
  unfold calculate_industry_relevance
  dsimp only
  split
  · rename_i fst priorities h
    have hmem : (fst, priorities) ∈ industry_priorities :=
      List.mem_of_mem_filter
        ((List.eq_cons_of_mem_head? h) ▸ List.mem_cons_self _ _)
    refine pyDictGet_prop (fun v => 0 ≤ v ∧ v ≤ 1) _ _ _ (by norm_num) ?_
    intro pe hpe
    have htable : ∀ x ∈ industry_priorities, ∀ y ∈ x.2,
        0 ≤ y.2 ∧ y.2 ≤ 1 := by
      intro x hx
      fin_cases hx <;> (intro y hy; fin_cases hy <;> norm_num)
    exact htable _ hmem pe hpe
  · norm_num

theorem innovation_score_bounds (s : Az.Service) (p : List String) :
    0 ≤ calculate_innovation_score s p ∧
      calculate_innovation_score s p ≤ 1 := by
  unfold calculate_innovation_score
  split_ifs <;> norm_num

theorem adjust_weights_pre_pos (r : Az.Requirements) (p : List String) :
    0 < (adjust_weights_pre r p).functional_alignment ∧
    0 < (adjust_weights_pre r p).architectural_fit ∧
    0 < (adjust_weights_pre r p).compliance_match ∧
    0 < (adjust_weights_pre r p).integration_synergy ∧
    0 < (adjust_weights_pre r p).cost_efficiency ∧
    0 < (adjust_weights_pre r p).industry_relevance ∧
    0 < (adjust_weights_pre r p).innovation_factor := by
  unfold adjust_weights_pre
  dsimp only
  refine ⟨by norm_num, ?_, ?_, by norm_num, ?_, by norm_num, ?_⟩ <;>
    split_ifs <;> norm_num

/-- The normalized weights are nonnegative and sum to exactly 1. -/
theorem adjust_weights_normalized (r : Az.Requirements) (p : List String) :
    (0 ≤ (adjust_weights r p).functional_alignment ∧
     0 ≤ (adjust_weights r p).architectural_fit ∧
     0 ≤ (adjust_weights r p).compliance_match ∧
     0 ≤ (adjust_weights r p).integration_synergy ∧
     0 ≤ (adjust_weights r p).cost_efficiency ∧
     0 ≤ (adjust_weights r p).industry_relevance ∧
     0 ≤ (adjust_weights r p).innovation_factor) ∧
    weightsTotal (adjust_weights r p) = 1 := by
  obtain ⟨h1, h2, h3, h4, h5, h6, h7⟩ := adjust_weights_pre_pos r p
  have htot : 0 < weightsTotal (adjust_weights_pre r p) := by
    unfold weightsTotal; linarith
  constructor
  · unfold adjust_weights
    dsimp only
    exact ⟨div_nonneg h1.le htot.le, div_nonneg h2.le htot.le,
      div_nonneg h3.le htot.le, div_nonneg h4.le htot.le,
      div_nonneg h5.le htot.le, div_nonneg h6.le htot.le,
      div_nonneg h7.le htot.le⟩
  · unfold adjust_weights
    unfold weightsTotal at htot ⊢
    dsimp only
    field_simp

/-- The weighted engine total is a convex-style combination of sub-scores
in `[0, 1]` scaled by 100, hence lies in `[0, 100]`. -/
theorem calculate_score_bounds (s : Az.Service) (r : Az.Requirements)
    (c : List String) (q : ℚ) (br : Scores)
    (h : calculate_score s r c = some (q, br)) : 0 ≤ q ∧ q ≤ 100 := by
  unfold calculate_score at h
  dsimp only at h
  split at h
  · exact absurd h (by simp)
  · rename_i fa hfa
    injection h with h
    have hq : q = (fa * (adjust_weights r (detect_patterns r)).functional_alignment +
        calculate_architectural_fit s (detect_patterns r) *
          (adjust_weights r (detect_patterns r)).architectural_fit +
        calculate_compliance_score s r *
          (adjust_weights r (detect_patterns r)).compliance_match +
        calculate_integration_score s c *
          (adjust_weights r (detect_patterns r)).integration_synergy +
        calculate_cost_efficiency s r *
          (adjust_weights r (detect_patterns r)).cost_efficiency +
        calculate_industry_relevance s r *
          (adjust_weights r (detect_patterns r)).industry_relevance +
        calculate_innovation_score s (detect_patterns r) *
          (adjust_weights r (detect_patterns r)).innovation_factor) * 100 :=
      ((Prod.mk.injEq _ _ _ _).mp h).1.symm
    obtain ⟨hfa0, hfa1⟩ := functional_alignment_bounds s r _ fa hfa
    obtain ⟨haf0, haf1⟩ := architectural_fit_bounds s (detect_patterns r)
    obtain ⟨hcm0, hcm1⟩ := compliance_score_bounds s r
    obtain ⟨his0, his1⟩ := integration_score_bounds s c
    obtain ⟨hce0, hce1⟩ := cost_efficiency_bounds s r
    obtain ⟨hir0, hir1⟩ := industry_relevance_bounds s r
    obtain ⟨hif0, hif1⟩ := innovation_score_bounds s (detect_patterns r)
    obtain ⟨⟨w1, w2, w3, w4, w5, w6, w7⟩, hsum⟩ :=
      adjust_weights_normalized r (detect_patterns r)
    unfold weightsTotal at hsum
    have t1 := mul_le_of_le_one_left w1 hfa1
    have t2 := mul_le_of_le_one_left w2 haf1
    have t3 := mul_le_of_le_one_left w3 hcm1
    have t4 := mul_le_of_le_one_left w4 his1
    have t5 := mul_le_of_le_one_left w5 hce1
    have t6 := mul_le_of_le_one_left w6 hir1
    have t7 := mul_le_of_le_one_left w7 hif1
    have n1 := mul_nonneg hfa0 w1
    have n2 := mul_nonneg haf0 w2
    have n3 := mul_nonneg hcm0 w3
    have n4 := mul_nonneg his0 w4
    have n5 := mul_nonneg hce0 w5
    have n6 := mul_nonneg hir0 w6
    have n7 := mul_nonneg hif0 w7
    constructor
    · rw [hq]; nlinarith
    · rw [hq]; nlinarith

end Engine

/-- A minimal requirements record (non-empty use case, no industry, no
capabilities) used for concrete witnesses and counterexamples. -/
def plainRequirements : Az.Requirements :=
  { use_case := "x", industry := "", capabilities := []
    budget_sensitivity := some "medium" }

/-- The requirements record named by the spec example: healthcare industry,
use case "real-time analytics", the Real-time Analytics capability
selected. -/
def realtimeHealthcareRequirements : Az.Requirements :=
  { use_case := "real-time analytics"
    industry := "healthcare"
    capabilities := [("Real-time Analytics", true)] }

/-- A requirements record whose capabilities mapping is non-empty but has
every capability deselected. -/
def deselectedCapsRequirements : Az.Requirements :=
  { use_case := "", industry := ""
    capabilities := [("Real-time Analytics", false)] }

/-- The engine sub-score vector of Azure Virtual Network under
`plainRequirements` and an empty context. -/
def vnetEngineScores : Engine.Scores :=
  { functional_alignment := 0
    architectural_fit := 1
    compliance_match := 1/2
    integration_synergy := 1/2
    cost_efficiency := 4/5
    industry_relevance := 1/2
    innovation_factor := 3/10 }

/-- C1: for every service descriptor, requirements record and context on
which scoring is defined, the total score lies in [0, 100]: the point-based
engine (`calculate_comprehensive_score`) sums seven blocks capped at
25/20/15/15/10/10/5, and the weighted-sum engine (`calculate_score`)
multiplies normalized weights by sub-scores capped at 1.0 and scales by
100. -/
theorem C1_total_score_in_0_100 :
    (∀ (s : Az.Service) (r : Az.Requirements) (c : List String),
      0 ≤ (Az.calculate_comprehensive_score s r c).1 ∧
        (Az.calculate_comprehensive_score s r c).1 ≤ 100) ∧
    (∀ (s : Az.Service) (r : Az.Requirements) (c : List String) (q : ℚ)
        (br : Engine.Scores),
      Engine.calculate_score s r c = some (q, br) → 0 ≤ q ∧ q ≤ 100) :=
  ⟨Az.comprehensive_score_bounds, Engine.calculate_score_bounds⟩

unseal Rat.inv Rat.mul Rat.add Rat.sub in
theorem C1_witness : (0:ℚ) ≤ 47 ∧ (47:ℚ) ≤ 100 :=
  C1_total_score_in_0_100.2 Catalog.azureVirtualNetwork plainRequirements []
    47 vnetEngineScores (by decide)

/-- C5 (code bug): scoring is not total.  On a requirements record whose
capabilities mapping is non-empty with every capability deselected,
`IntelligentScoringEngine._calculate_functional_alignment` divides by the
number of selected capabilities, which is zero — a `ZeroDivisionError`
(modelled as `none`) — so `calculate_score` raises; the point-based
`calculate_comprehensive_score` completes on the same input. -/
theorem C5_division_by_zero_on_all_false_capabilities :
    Engine.calculate_functional_alignment Catalog.azureVirtualNetwork
      deselectedCapsRequirements
      (Engine.detect_patterns deselectedCapsRequirements) = none ∧
    Engine.calculate_score Catalog.azureVirtualNetwork
      deselectedCapsRequirements [] = none ∧
    (Az.calculate_comprehensive_score Catalog.azureVirtualNetwork
      deselectedCapsRequirements []).1 = 28 := by
  decide

/-- C7: with an empty use-case text and no industry, the industry-relevance
sub-score is the neutral default of each engine: 0 points in
`calculate_comprehensive_score` and 0.5 in
`IntelligentScoringEngine._calculate_industry_relevance`. -/
theorem C7_neutral_industry_relevance (s : Az.Service)
    (r : Az.Requirements) (c : List String)
    (_huc : r.use_case = "") (hind : r.industry = "") :
    (Az.calculate_comprehensive_score s r c).2.industry_relevance = 0 ∧
    Engine.calculate_industry_relevance s r = 5/10 := by
  constructor
  · show Az.industryRelevance s r = 0
    unfold Az.industryRelevance
    rw [hind]
    simp
  · unfold Engine.calculate_industry_relevance
    rw [hind]
    rfl

theorem C7_witness :
    (Az.calculate_comprehensive_score Catalog.azureVirtualMachines
      { use_case := "", industry := "" } []).2.industry_relevance = 0 ∧
    Engine.calculate_industry_relevance Catalog.azureVirtualMachines
      { use_case := "", industry := "" } = 5/10 :=
  C7_neutral_industry_relevance Catalog.azureVirtualMachines
    { use_case := "", industry := "" } [] rfl rfl

set_option maxRecDepth 8192 in
/-- C8 counterexample: under the spec's example requirements the
stream-processing service Azure Stream Analytics scores 16 while the
baseline unrelated compute service Azure Virtual Machines scores 28, so
the ranked output places the stream-processing service BELOW the baseline
compute service (here on the relevant catalog fragment). -/
theorem C8_counterexample_stream_below_compute :
    (Az.calculate_comprehensive_score Catalog.azureStreamAnalytics
      realtimeHealthcareRequirements []).1 = 16 ∧
    (Az.calculate_comprehensive_score Catalog.azureVirtualMachines
      realtimeHealthcareRequirements []).1 = 28 ∧
    (Az.azPipeline realtimeHealthcareRequirements
      [Catalog.azureStreamAnalytics, Catalog.azureVirtualMachines,
       Catalog.azureKeyVault]).selected_services =
      ["Azure Key Vault", "Azure Virtual Machines",
       "Azure Stream Analytics"] := by
  decide

set_option maxRecDepth 8192 in
/-- C8 amended: the security service is elevated above the baseline
unrelated compute service (45 > 28), but the stream-processing service is
not — it ranks below the baseline (16 < 28), because its use-case tags
(`real_time`, `streaming`) never occur in the text "real-time analytics"
and its compliance list earns no healthcare points. -/
theorem C8_amended_security_above_compute_stream_below :
    (Az.calculate_comprehensive_score Catalog.azureKeyVault
      realtimeHealthcareRequirements []).1 = 45 ∧
    (45:ℤ) > 28 ∧ (16:ℤ) < 28 ∧
    (Az.azPipeline realtimeHealthcareRequirements
      [Catalog.azureStreamAnalytics, Catalog.azureVirtualMachines,
       Catalog.azureKeyVault]).scored_services.map
        (fun e => (e.service.name, e.total_score)) =
      [("Azure Key Vault", 45), ("Azure Virtual Machines", 28),
       ("Azure Stream Analytics", 16)] := by
  decide

/-- C9 counterexample: in AZnewapp.py, when generation is requested with an
empty use-case the main content falls through to the welcome screen — no
error message is shown. -/
theorem C9_counterexample_no_error_in_aznewapp :
    Az.azDispatch true "" = Az.UiOutcome.welcomeScreen ∧
    Az.azDispatch true "" ≠ Az.UiOutcome.errorMessage := by
  decide

/-- C9 amended: in both entry points the pipeline runs iff generation is
requested with a non-empty use-case; on generation with an empty use-case
main.py shows an error message while AZnewapp.py shows the welcome
screen (the error message is main.py-only). -/
theorem C9_amended_guard :
    (∀ (g : Bool) (uc : String),
      (Az.azDispatch g uc = Az.UiOutcome.runPipeline ↔ g = true ∧ uc ≠ "") ∧
      (Engine.mainDispatch g uc = Az.UiOutcome.runPipeline ↔
        g = true ∧ uc ≠ "")) ∧
    Engine.mainDispatch true "" = Az.UiOutcome.errorMessage ∧
    Az.azDispatch true "" = Az.UiOutcome.welcomeScreen := by
  refine ⟨?_, by decide, by decide⟩
  intro g uc
  constructor
  · unfold Az.azDispatch
    split_ifs with h
    · simp only [Bool.and_eq_true, decide_eq_true_eq] at h
      simp [h]
    · simp only [Bool.and_eq_true, decide_eq_true_eq] at h
      constructor
      · intro hcontra
        exact absurd hcontra (by decide)
      · intro hcontra
        exact absurd ⟨hcontra.1, by simpa using hcontra.2⟩ h
  · unfold Engine.mainDispatch
    split_ifs with h h2
    · simp only [Bool.and_eq_true, decide_eq_true_eq] at h
      simp [h]
    · simp only [Bool.and_eq_true, decide_eq_true_eq] at h
      constructor
      · intro hcontra
        exact absurd hcontra (by decide)
      · intro hcontra
        exact absurd ⟨hcontra.1, by simpa using hcontra.2⟩ h
    · simp only [Bool.and_eq_true, decide_eq_true_eq] at h
      constructor
      · intro hcontra
        exact absurd hcontra (by decide)
      · intro hcontra
        exact absurd ⟨hcontra.1, by simpa using hcontra.2⟩ h

theorem natRat70 (a b : ℕ) : ((a:ℚ) ≥ (b:ℚ) * (7/10)) ↔ 10*a ≥ 7*b := by
  rw [ge_iff_le, ge_iff_le]
  constructor
  · intro h
    have h2 : ((7*b : ℕ):ℚ) ≤ ((10*a : ℕ):ℚ) := by push_cast; linarith
    exact_mod_cast h2
  · intro h
    have h2 : ((7*b : ℕ):ℚ) ≤ ((10*a : ℕ):ℚ) := by exact_mod_cast h
    push_cast at h2
    linarith

theorem natRat80 (a b : ℕ) : ((a:ℚ) ≥ (b:ℚ) * (8/10)) ↔ 10*a ≥ 8*b := by
  rw [ge_iff_le, ge_iff_le]
  constructor
  · intro h
    have h2 : ((8*b : ℕ):ℚ) ≤ ((10*a : ℕ):ℚ) := by push_cast; linarith
    exact_mod_cast h2
  · intro h
    have h2 : ((8*b : ℕ):ℚ) ≤ ((10*a : ℕ):ℚ) := by exact_mod_cast h
    push_cast at h2
    linarith

theorem natRat50 (a b : ℕ) : ((a:ℚ) ≥ (b:ℚ) * (5/10)) ↔ 10*a ≥ 5*b := by
  rw [ge_iff_le, ge_iff_le]
  constructor
  · intro h
    have h2 : ((5*b : ℕ):ℚ) ≤ ((10*a : ℕ):ℚ) := by push_cast; linarith
    exact_mod_cast h2
  · intro h
    have h2 : ((5*b : ℕ):ℚ) ≤ ((10*a : ℕ):ℚ) := by exact_mod_cast h
    push_cast at h2
    linarith

/-- C2: the completeness classification of `detect_architecture_patterns`
is "complete" iff required coverage is 100% and recommended coverage is at
least 70%; the remaining labels follow the fixed 70%/80%/50% thresholds. -/
theorem C2_completeness_classification
    (required_services recommended_services selected_services : List String) :
    (Az.determineCompleteness
        (Az.coverage required_services selected_services)
        required_services.length
        (Az.coverage recommended_services selected_services)
        recommended_services.length = "complete" ↔
      Az.coverage required_services selected_services =
        required_services.length ∧
      10 * Az.coverage recommended_services selected_services ≥
        7 * recommended_services.length) ∧
    (Az.determineCompleteness
        (Az.coverage required_services selected_services)
        required_services.length
        (Az.coverage recommended_services selected_services)
        recommended_services.length = "core_complete" ↔
      Az.coverage required_services selected_services =
        required_services.length ∧
      ¬ (10 * Az.coverage recommended_services selected_services ≥
        7 * recommended_services.length)) ∧
    (Az.determineCompleteness
        (Az.coverage required_services selected_services)
        required_services.length
        (Az.coverage recommended_services selected_services)
        recommended_services.length = "mostly_complete" ↔
      Az.coverage required_services selected_services ≠
        required_services.length ∧
      10 * Az.coverage required_services selected_services ≥
        8 * required_services.length) ∧
    (Az.determineCompleteness
        (Az.coverage required_services selected_services)
        required_services.length
        (Az.coverage recommended_services selected_services)
        recommended_services.length = "partially_complete" ↔
      Az.coverage required_services selected_services ≠
        required_services.length ∧
      ¬ (10 * Az.coverage required_services selected_services ≥
        8 * required_services.length) ∧
      10 * Az.coverage required_services selected_services ≥
        5 * required_services.length) ∧
    (Az.determineCompleteness
        (Az.coverage required_services selected_services)
        required_services.length
        (Az.coverage recommended_services selected_services)
        recommended_services.length = "minimal" ↔
      Az.coverage required_services selected_services ≠
        required_services.length ∧
      ¬ (10 * Az.coverage required_services selected_services ≥
        8 * required_services.length) ∧
      ¬ (10 * Az.coverage required_services selected_services ≥
        5 * required_services.length)) := by
  generalize Az.coverage required_services selected_services = rc
  generalize required_services.length = tr
  generalize Az.coverage recommended_services selected_services = cc
  generalize recommended_services.length = trec
  unfold Az.determineCompleteness
  simp only [natRat70, natRat80, natRat50]
  split_ifs with hA hB hC hD <;>
    refine ⟨?_, ?_, ?_, ?_, ?_⟩ <;> simp <;> omega

/-- C4: the category-specific scaling factor of `generate_cost_analysis`
is at least 1 whatever the declared scale parameters are, so a service's
estimated monthly cost is never below the base cost of its cost tier. -/
theorem C4_scaling_factor_at_least_one :
    (∀ (category : String) (team_size data_volume expected_users : ℚ),
      1 ≤ Az.scalingFactor category team_size data_volume expected_users) ∧
    (∀ (s : Az.Service) (r : Az.Requirements) (monthly annual : ℚ),
      Az.serviceCost s r = some (monthly, annual) →
      ∀ x, (Az.base_costs.filter
          (fun e => e.1 = s.cost_tier.getD "medium")).head? = some x →
        x.2 ≤ monthly) := by
  constructor
  · intro category team_size data_volume expected_users
    unfold Az.scalingFactor
    split_ifs <;> exact le_max_left 1 _
  · intro s r monthly annual h x hx
    unfold Az.serviceCost at h
    dsimp only at h
    rw [hx] at h
    injection h with h
    have hm : monthly = x.2 * Az.scalingFactor s.category r.team_size
        r.data_volume_gb r.expected_users :=
      (Prod.mk.injEq _ _ _ _).mp h.symm |>.1
    have hbase : (0:ℚ) ≤ x.2 := by
      have hmem : x ∈ Az.base_costs :=
        List.mem_of_mem_filter
          ((List.eq_cons_of_mem_head? hx) ▸ List.mem_cons_self _ _)
      fin_cases hmem <;> norm_num
    have hfac : 1 ≤ Az.scalingFactor s.category r.team_size
        r.data_volume_gb r.expected_users := by
      unfold Az.scalingFactor
      split_ifs <;> exact le_max_left 1 _
    rw [hm]
    exact le_mul_of_one_le_right hbase hfac

unseal Rat.inv Rat.mul Rat.add Rat.sub in
theorem C4_witness : (("variable", (200:ℚ)) : String × ℚ).2 ≤ 400 :=
  C4_scaling_factor_at_least_one.2 Catalog.azureVirtualMachines
    plainRequirements 400 4080 (by decide) ("variable", 200) (by decide)

/-- C10: `generate_cost_analysis` is defined exactly when every selected
service carries a known (or absent, defaulting to "medium") cost tier; an
unknown tier makes the unguarded `base_costs[cost_tier]` lookup raise.  The
scoring engine instead maps unknown tiers to the neutral cost-efficiency
score 6. -/
theorem C10_cost_analysis_partiality :
    (∀ (services : List Az.Service) (r : Az.Requirements),
      (Az.generate_cost_analysis services r).isSome = true ↔
        ∀ s ∈ services, s.cost_tier.getD "medium" ∈
          ["free", "low", "medium", "high", "variable"]) ∧
    (∀ (s : Az.Service) (r : Az.Requirements) (c : List String),
      s.cost_tier.getD "medium" ∉
          ["free", "low", "medium", "high", "variable"] →
        (Az.calculate_comprehensive_score s r c).2.cost_efficiency = 6) := by
  constructor
  · intro services r
    have hsc : ∀ s : Az.Service, (Az.serviceCost s r).isSome = true ↔
        s.cost_tier.getD "medium" ∈
          ["free", "low", "medium", "high", "variable"] := by
      intro s
      unfold Az.serviceCost
      dsimp only
      cases hx : (Az.base_costs.filter
          (fun e => e.1 = s.cost_tier.getD "medium")).head? with
      | none =>
        simp only [Option.isSome_none, Bool.false_eq_true, false_iff]
        intro hmem
        have hex : ∃ e ∈ Az.base_costs, e.1 = s.cost_tier.getD "medium" := by
          simp only [List.mem_cons, List.not_mem_nil, or_false] at hmem
          rcases hmem with h | h | h | h | h
          · exact ⟨("free", 0), by norm_num [Az.base_costs], by rw [h]⟩
          · exact ⟨("low", 75), by norm_num [Az.base_costs], by rw [h]⟩
          · exact ⟨("medium", 350), by norm_num [Az.base_costs], by rw [h]⟩
          · exact ⟨("high", 1200), by norm_num [Az.base_costs], by rw [h]⟩
          · exact ⟨("variable", 200), by norm_num [Az.base_costs], by rw [h]⟩
        rcases hex with ⟨e, hmem2, heq⟩
        have hne : Az.base_costs.filter
            (fun e => e.1 = s.cost_tier.getD "medium") ≠ [] := by
          intro hnil
          have hin : e ∈ Az.base_costs.filter
              (fun e => e.1 = s.cost_tier.getD "medium") :=
            List.mem_filter.mpr ⟨hmem2, by simp [heq]⟩
          rw [hnil] at hin
          exact absurd hin (List.not_mem_nil e)
        rw [List.head?_eq_none_iff] at hx
        exact absurd hx hne
      | some e =>
        simp only [Option.isSome_some, true_iff]
        have hmem2 : e ∈ Az.base_costs.filter
            (fun e => e.1 = s.cost_tier.getD "medium") :=
          (List.eq_cons_of_mem_head? hx) ▸ List.mem_cons_self _ _
        obtain ⟨h1, h2⟩ := List.mem_filter.mp hmem2
        simp only [decide_eq_true_eq] at h2
        have hkey : e.1 ∈ ["free", "low", "medium", "high", "variable"] := by
          fin_cases h1 <;> simp
        rw [h2] at hkey
        exact hkey
    unfold Az.generate_cost_analysis
    cases hmm : optionMapAll (fun s => (Az.serviceCost s r).map
        (fun c => (s.name, c.1, c.2))) services with
    | none =>
      dsimp only
      simp only [Option.isSome_none, Bool.false_eq_true, false_iff]
      intro hall
      have hsome : (optionMapAll (fun s => (Az.serviceCost s r).map
          (fun c => (s.name, c.1, c.2))) services).isSome = true :=
        (optionMapAll_isSome _ _).mpr (fun a ha => by
          rw [Option.isSome_map']
          exact (hsc a).mpr (hall a ha))
      rw [hmm] at hsome
      exact absurd hsome (by simp)
    | some per =>
      dsimp only
      simp only [Option.isSome_some, true_iff]
      intro a ha
      have hsome : (optionMapAll (fun s => (Az.serviceCost s r).map
          (fun c => (s.name, c.1, c.2))) services).isSome = true := by
        rw [hmm]; rfl
      rw [optionMapAll_isSome] at hsome
      have h2 := hsome a ha
      rw [Option.isSome_map'] at h2
      exact (hsc a).mp h2
  · intro s r c hmem
    show Az.costEfficiency s = 6
    unfold Az.costEfficiency Az.costScore
    split_ifs with h1 h2 h3 h4 h5
    · exact absurd (by simp [h1]) hmem
    · exact absurd (by simp [h2]) hmem
    · exact absurd (by simp [h3]) hmem
    · exact absurd (by simp [h4]) hmem
    · exact absurd (by simp [h5]) hmem
    · rfl

theorem C10_witness :
    (Az.calculate_comprehensive_score
      { name := "Custom Service", category := "Compute",
        cost_tier := some "enterprise" } plainRequirements
      []).2.cost_efficiency = 6 :=
  C10_cost_analysis_partiality.2
    { name := "Custom Service", category := "Compute",
      cost_tier := some "enterprise" } plainRequirements [] (by decide)

theorem az_integration_empty (s : Az.Service) :
    Az.integrationSynergy s [] = 0 := by
  unfold Az.integrationSynergy
  simp

theorem engine_integration_empty (s : Az.Service) :
    Engine.calculate_integration_score s [] = 5/10 := rfl

theorem azSortLe_total (a b : Az.ScoredService) :
    Az.azSortLe a b = true ∨ Az.azSortLe b a = true := by
  unfold Az.azSortLe pyStrLe
  simp only [Bool.or_eq_true, Bool.and_eq_true, decide_eq_true_eq]
  rcases lt_trichotomy a.total_score b.total_score with h | h | h
  · exact Or.inr (Or.inl h)
  · rcases le_total a.service.name.toList b.service.name.toList with hn | hn
    · exact Or.inl (Or.inr ⟨h, hn⟩)
    · exact Or.inr (Or.inr ⟨h.symm, hn⟩)
  · exact Or.inl (Or.inl h)

theorem azSortLe_trans (a b c : Az.ScoredService)
    (hab : Az.azSortLe a b = true) (hbc : Az.azSortLe b c = true) :
    Az.azSortLe a c = true := by
  unfold Az.azSortLe pyStrLe at *
  simp only [Bool.or_eq_true, Bool.and_eq_true, decide_eq_true_eq] at *
  rcases hab with h1 | ⟨h1, hn1⟩
  · rcases hbc with h2 | ⟨h2, hn2⟩
    · exact Or.inl (lt_trans h2 h1)
    · exact Or.inl (h2 ▸ h1)
  · rcases hbc with h2 | ⟨h2, hn2⟩
    · exact Or.inl (h1 ▸ h2)
    · exact Or.inr ⟨h1.trans h2, le_trans hn1 hn2⟩

theorem mainSortLe_total (a b : Engine.ScoredService) :
    Engine.mainSortLe a b = true ∨ Engine.mainSortLe b a = true := by
  unfold Engine.mainSortLe
  simp only [decide_eq_true_eq]
  exact le_total b.total_score a.total_score

theorem mainSortLe_trans (a b c : Engine.ScoredService)
    (hab : Engine.mainSortLe a b = true)
    (hbc : Engine.mainSortLe b c = true) :
    Engine.mainSortLe a c = true := by
  unfold Engine.mainSortLe at *
  simp only [decide_eq_true_eq] at *
  exact le_trans hbc hab

/-- C6: during the whole scoring pass the architecture context's
selected-services list is empty (it is assigned exactly once, from the
sorted and truncated survivors), so every scored entry's
integration-synergy sub-score is the empty-selection value: 0 points in
AZnewapp.py and the neutral 0.5 in main.py's engine. -/
theorem C6_selection_is_post_hoc :
    (∀ (r : Az.Requirements) (catalog : List Az.Service),
      (∀ e ∈ (Az.azPipeline r catalog).scored_services,
        e.score_breakdown.integration_synergy = 0) ∧
      (Az.azPipeline r catalog).selected_services =
        ((Az.azPipeline r catalog).scored_services.take 20).map
          (fun e => e.service.name)) ∧
    (∀ (r : Az.Requirements) (catalog : List Az.Service)
        (res : Engine.MainPipelineResult),
      Engine.process_architecture_request r catalog = some res →
      (∀ e ∈ res.scored_services,
        e.score_breakdown.integration_synergy = 5/10) ∧
      res.selected_services = (res.scored_services.take 25).map
        (fun e => e.service.name)) := by
  constructor
  · intro r catalog
    constructor
    · intro e he
      simp only [Az.azPipeline] at he
      rw [mem_sortStable] at he
      rcases List.mem_filterMap.mp he with ⟨a, ha, hfa⟩
      split at hfa
      · injection hfa with hfa
        subst hfa
        exact az_integration_empty a
      · exact absurd hfa (by simp)
    · rfl
  · intro r catalog res h
    unfold Engine.process_architecture_request at h
    dsimp only at h
    cases hmm : optionMapAll (fun service =>
        (Engine.calculate_score service r []).map
          (fun p => ({ service := service, total_score := p.1,
                       score_breakdown := p.2 } : Engine.ScoredService)))
        catalog with
    | none => rw [hmm] at h; exact absurd h (by simp)
    | some scored_all =>
      rw [hmm] at h
      injection h with h
      subst h
      constructor
      · intro e he
        dsimp only at he
        rw [mem_sortStable] at he
        have he2 : e ∈ scored_all := (List.mem_filter.mp he).1
        rcases optionMapAll_mem _ _ _ hmm e he2 with ⟨a, ha, hfa⟩
        cases hcs : Engine.calculate_score a r [] with
        | none => rw [hcs] at hfa; exact absurd hfa (by simp)
        | some p =>
          rw [hcs] at hfa
          simp only [Option.map_some', Option.some.injEq] at hfa
          subst hfa
          unfold Engine.calculate_score at hcs
          dsimp only at hcs
          split at hcs
          · exact absurd hcs (by simp)
          · injection hcs with hcs
            subst hcs
            exact engine_integration_empty a
      · rfl

/-- The concrete result of main.py's pipeline on the one-service catalog
[Azure Virtual Network] under `plainRequirements`. -/
def vnetPipelineResult : Engine.MainPipelineResult :=
  { scored_services := [⟨Catalog.azureVirtualNetwork, 47, vnetEngineScores⟩]
    top_services := [⟨Catalog.azureVirtualNetwork, 47, vnetEngineScores⟩]
    selected_services := ["Azure Virtual Network"] }

unseal Rat.inv Rat.mul Rat.add Rat.sub in
theorem C6_witness :
    ((⟨Catalog.azureVirtualMachines, 15,
        ⟨0, 10, 0, 0, 5, 0, 0⟩⟩ : Az.ScoredService)).score_breakdown.integration_synergy
      = 0 ∧
    vnetPipelineResult.selected_services =
      (vnetPipelineResult.scored_services.take 25).map
        (fun e => e.service.name) :=
  ⟨(C6_selection_is_post_hoc.1 plainRequirements
      [Catalog.azureVirtualMachines]).1
      ⟨Catalog.azureVirtualMachines, 15, ⟨0, 10, 0, 0, 5, 0, 0⟩⟩ (by decide),
    (C6_selection_is_post_hoc.2 plainRequirements
      [Catalog.azureVirtualNetwork] vnetPipelineResult (by decide)).2⟩

set_option maxRecDepth 8192 in
unseal Rat.inv Rat.mul Rat.add Rat.sub in
/-- C3 counterexample: main.py sorts only by descending total score; the
sort is stable, so the equal-score pair Azure Virtual Network / Azure Key
Vault (both 47 under `plainRequirements`) stays in catalog order, which is
name-DESCENDING — refuting the claim that both entry points break ties by
ascending name. -/
theorem C3_counterexample_tie_in_catalog_order :
    (Engine.process_architecture_request plainRequirements
      Catalog.get_all_services).map
        (fun res => res.scored_services.map
          (fun e => (e.service.name, e.total_score))) =
      some [("Azure Virtual Network", 47), ("Azure Key Vault", 47),
        ("Azure Monitor", 45), ("Azure Application Gateway", 43),
        ("Azure SQL Database", 43), ("Azure Kubernetes Service", 83/2),
        ("Azure Cosmos DB", 203/5), ("Azure Functions", 37)] ∧
    pyStrLe "Azure Virtual Network" "Azure Key Vault" = false := by
  constructor
  · decide
  · decide

/-- C3 amended: in AZnewapp.py the surviving services are sorted by
descending total score with ties broken by ascending name and truncated to
the top 20; in main.py they are sorted by descending total score alone
(stable, so equal scores keep catalog order) and truncated to the top
25. -/
theorem C3_amended_sort_order :
    (∀ (r : Az.Requirements) (catalog : List Az.Service),
      (Az.azPipeline r catalog).scored_services.Pairwise
        (fun a b => Az.azSortLe a b = true) ∧
      (Az.azPipeline r catalog).top_services =
        (Az.azPipeline r catalog).scored_services.take 20) ∧
    (∀ (r : Az.Requirements) (catalog : List Az.Service)
        (res : Engine.MainPipelineResult),
      Engine.process_architecture_request r catalog = some res →
      res.scored_services.Pairwise
        (fun a b => Engine.mainSortLe a b = true) ∧
      res.top_services = res.scored_services.take 25) := by
  constructor
  · intro r catalog
    constructor
    · exact pairwise_sortStable Az.azSortLe azSortLe_total azSortLe_trans _
    · rfl
  · intro r catalog res h
    unfold Engine.process_architecture_request at h
    dsimp only at h
    cases hmm : optionMapAll (fun service =>
        (Engine.calculate_score service r []).map
          (fun p => ({ service := service, total_score := p.1,
                       score_breakdown := p.2 } : Engine.ScoredService)))
        catalog with
    | none => rw [hmm] at h; exact absurd h (by simp)
    | some scored_all =>
      rw [hmm] at h
      injection h with h
      subst h
      constructor
      · exact pairwise_sortStable Engine.mainSortLe mainSortLe_total
          mainSortLe_trans _
      · rfl

unseal Rat.inv Rat.mul Rat.add Rat.sub in
theorem C3_witness :
    vnetPipelineResult.scored_services.Pairwise
      (fun a b => Engine.mainSortLe a b = true) ∧
    vnetPipelineResult.top_services =
      vnetPipelineResult.scored_services.take 25 :=
  C3_amended_sort_order.2 plainRequirements [Catalog.azureVirtualNetwork]
    vnetPipelineResult (by decide)
